import Mathlib

/-! Verification of the access-controlled, multi-namespace memory
aggregation layer of the a4s repository: the Mem0 memory manager
(src/api/app/memory/mem0_manager.py) and the provider factory
(src/api/app/memory/factory.py). Python methods are embedded as pure
Lean functions; the backend (mem0 AsyncMemory) is modelled as explicit
response maps, a raised exception as an Except error value, and the
sequence of backend invocations as an explicit call trace, so that
"zero backend calls" is a statement about the trace. -/

namespace A4S

/-- Visibility classification of a memory: a Python enum with values
"private" and "public". The Lean constructors are capitalized because
lowercase private is a Lean keyword. -/
inductive Visibility
  | Private
  | Public
deriving DecidableEq, Repr

/-- String value of a visibility member, as read by
request.visibility.value in the Python code. -/
def Visibility.value : Visibility → String
  | .Private => "private"
  | .Public => "public"

/-- Open string-keyed metadata mapping, opaque to this layer. -/
abbrev Metadata := List (String × String)

/-- A raw backend hit: a Python dict whose fields are read with dict.get,
so every field may be absent. The numeric relevance score is modelled as
an integer-valued ordered quantity. -/
structure RawResult where
  id : Option String
  memory : Option String
  score : Option Int
  metadata : Option Metadata
deriving DecidableEq, Repr

/-- The empty dict that add falls back to when the backend response
carries no (or an empty) results list. -/
def emptyRaw : RawResult := ⟨none, none, none, none⟩

/-- Response shape of the backend search call: a dict whose "results"
key may be absent; the code reads results.get("results", []). -/
structure SearchResponse where
  results : Option (List RawResult)
deriving DecidableEq, Repr

/-- Response shape of the backend add call: the code tests the
truthiness of result.get("results"), so an absent key and an empty
list behave alike. -/
structure AddResponse where
  results : Option (List RawResult)
deriving DecidableEq, Repr

/-- Uniform Memory record returned to callers (app.memory.models). -/
structure Memory where
  id : String
  content : String
  score : Option Int
  metadata : Option Metadata
deriving DecidableEq, Repr

/-- CreateMemoryRequest: logical agent id, visibility, the messages to
remember (role and content pairs) and caller-supplied metadata. -/
structure CreateMemoryRequest where
  agent_id : String
  visibility : Visibility
  messages : List (String × String)
  metadata : Option Metadata
deriving DecidableEq, Repr

/-- SearchMemoryRequest: targeted agent id, query text, result limit. -/
structure SearchMemoryRequest where
  agent_id : String
  query : String
  limit : Nat
deriving DecidableEq, Repr

/-- UpdateMemoryRequest: the replacement content. -/
structure UpdateMemoryRequest where
  content : String
deriving DecidableEq, Repr

/-- An opaque exception raised by a backend call; backend exception
classes are distinct from the PermissionError raised by the guard and
from the ValueError raised by the factory. -/
inductive BackendFailure
  | exception (msg : String)
deriving DecidableEq, Repr

/-- Errors of this layer: the PermissionError raised by the owner-only
guard, the ValueError raised by the provider factory, and a backend
exception propagating unchanged through a mutating operation. -/
inductive MemError
  | permissionError (msg : String)
  | configurationError (msg : String)
  | backendFailure (e : BackendFailure)
deriving DecidableEq, Repr

/-- The provider backend (mem0 AsyncMemory) modelled as pure response
maps; an error value models the awaited call raising an exception. -/
structure Backend where
  add : List (String × String) → String → Option Metadata → Except BackendFailure AddResponse
  search : String → String → Nat → Except BackendFailure SearchResponse
  update : String → String → Except BackendFailure Unit
  delete : String → Except BackendFailure Unit

/-- One recorded backend invocation; the trace of these lets theorems
state that a denied operation issues zero backend calls. -/
inductive BackendCall
  | addCall (messages : List (String × String)) (agent_id : String) (metadata : Option Metadata)
  | searchCall (query : String) (agent_id : String) (limit : Nat)
  | updateCall (memory_id : String) (content : String)
  | deleteCall (memory_id : String)
deriving DecidableEq, Repr

/-- Mem0MemoryManager._build_agent_id_with_visibility:
the f-string composition of agent id, a dash, and the visibility tag. -/
def build_agent_id_with_visibility (agent_id visibility : String) : String :=
  agent_id ++ "-" ++ visibility

/-- Mem0MemoryManager._get_search_agent_ids: the owner sees the private
namespace first and then the public one; any other requester sees only
the public namespace. -/
def get_search_agent_ids (agent_id requester_id owner_id : String) : List String :=
  if requester_id = owner_id then
    [agent_id ++ "-private", agent_id ++ "-public"]
  else
    [agent_id ++ "-public"]

/-- Mem0MemoryManager.add: owner-only guard, then one backend add call;
maps the first backend result entry (if any) into a Memory, else an
empty-field Memory. Returns the outcome paired with the backend-call
trace. -/
def add (b : Backend) (request : CreateMemoryRequest) (owner_id requester_id : String) :
    Except MemError Memory × List BackendCall :=
  if requester_id ≠ owner_id then
    (.error (.permissionError "Only the owner can write to agent memory"), [])
  else
    let scoped_agent_id := build_agent_id_with_visibility request.agent_id request.visibility.value
    match b.add request.messages scoped_agent_id request.metadata with
    | .error e => (.error (.backendFailure e), [.addCall request.messages scoped_agent_id request.metadata])
    | .ok result =>
      let mem := match result.results with
        | some (m :: _) => m
        | _ => emptyRaw
      (.ok { id := mem.id.getD "", content := mem.memory.getD "", score := none,
             metadata := mem.metadata },
       [.addCall request.messages scoped_agent_id request.metadata])

/-- Sort key used by search: x.get("score", 0). -/
def scoreKey (r : RawResult) : Int :=
  r.score.getD 0

/-- The descending-score order: a precedes b when the key of b does not
exceed the key of a, so elements of equal key stay in arrival order
under a stable sort. -/
def scoreDescOrder (a b : RawResult) : Prop :=
  scoreKey b ≤ scoreKey a

instance : DecidableRel scoreDescOrder :=
  fun a b => inferInstanceAs (Decidable (scoreKey b ≤ scoreKey a))

instance : IsTotal RawResult scoreDescOrder :=
  ⟨fun a b => le_total (scoreKey b) (scoreKey a)⟩

instance : IsTrans RawResult scoreDescOrder :=
  ⟨fun _ _ _ hab hbc => le_trans hbc hab⟩

/-- The Python stable sort with key score (default 0) and reverse=True:
a stable sort by descending key. -/
def sortByScoreDesc (l : List RawResult) : List RawResult :=
  l.insertionSort scoreDescOrder

/-- One iteration of the search loop over a namespace: the backend call
is attempted (and traced); on success its results extend the working
set, on any exception the error is swallowed (logged) and the working
set is unchanged. -/
def searchStep (b : Backend) (query : String) (limit : Nat)
    (st : List RawResult × List BackendCall) (aid : String) :
    List RawResult × List BackendCall :=
  match b.search query aid limit with
  | .ok results => (st.1 ++ results.results.getD [], st.2 ++ [.searchCall query aid limit])
  | .error _ => (st.1, st.2 ++ [.searchCall query aid limit])

/-- Maps a raw backend search hit into the uniform Memory shape. -/
def rawToMemory (r : RawResult) : Memory :=
  { id := r.id.getD "", content := r.memory.getD "", score := r.score,
    metadata := r.metadata }

/-- Mem0MemoryManager.search: resolve visible namespaces, query each one
with the full limit inside a try/except, then sort the merged working
set by score descending and truncate to the limit. The outer Except
records whether any exception escapes to the caller. -/
def search (b : Backend) (request : SearchMemoryRequest) (owner_id requester_id : String) :
    Except MemError (List Memory) × List BackendCall :=
  let agent_ids := get_search_agent_ids request.agent_id requester_id owner_id
  let looped := agent_ids.foldl (searchStep b request.query request.limit) ([], [])
  let sorted := sortByScoreDesc looped.1
  let final := sorted.take request.limit
  (.ok (final.map rawToMemory), looped.2)

/-- Mem0MemoryManager.update: no ownership check (the method does not
even receive requester or owner identities); forwards id and content to
the backend and returns a Memory echoing exactly what was written. -/
def update (b : Backend) (memory_id : String) (request : UpdateMemoryRequest) :
    Except MemError Memory × List BackendCall :=
  match b.update memory_id request.content with
  | .ok _ =>
    (.ok { id := memory_id, content := request.content, score := none, metadata := none },
     [.updateCall memory_id request.content])
  | .error e => (.error (.backendFailure e), [.updateCall memory_id request.content])

/-- Mem0MemoryManager.delete: owner-only guard, then one backend delete
call whose error propagates unchanged. -/
def delete (b : Backend) (memory_id : String) (owner_id requester_id : String) :
    Except MemError Unit × List BackendCall :=
  if requester_id ≠ owner_id then
    (.error (.permissionError "Only the owner can delete agent memory"), [])
  else
    match b.delete memory_id with
    | .ok _ => (.ok (), [.deleteCall memory_id])
    | .error e => (.error (.backendFailure e), [.deleteCall memory_id])

/-- Modelled from the spec: the MemoryProvider configuration enum is
declared in app/config.py, which in this snapshot holds only
cors_origins; the factory compares cfg.memory_provider against the two
known kinds and the spec calls them a closed set of backend kinds with
string values supplied by environment-driven settings, so the
configured provider is modelled as a raw string. -/
def MemoryProvider.GRAPHITI : String := "graphiti"

/-- Modelled from the spec: the second known backend kind. -/
def MemoryProvider.MEM0 : String := "mem0"

/-- The slice of the configuration the factory consults. -/
structure FactoryConfig where
  memory_provider : String
deriving DecidableEq, Repr

/-- The concrete manager kind the factory constructs, abstracting the
GraphitiMemoryManager.create and Mem0MemoryManager.create calls. -/
inductive ManagerKind
  | graphitiManager
  | mem0Manager
deriving DecidableEq, Repr

/-- create_memory_manager (src/api/app/memory/factory.py): dispatch on
the configured provider, raising ValueError for any unknown value. -/
def create_memory_manager (cfg : FactoryConfig) : Except MemError ManagerKind :=
  if cfg.memory_provider = MemoryProvider.GRAPHITI then
    .ok .graphitiManager
  else if cfg.memory_provider = MemoryProvider.MEM0 then
    .ok .mem0Manager
  else
    .error (.configurationError ("Unsupported memory provider: " ++ cfg.memory_provider))

/-- An operation outcome that is a permission denial (the PermissionError
branch of the guard), as opposed to success or a backend error. -/
def isPermissionDenied {α : Type} (e : Except MemError α) : Prop :=
  ∃ msg, e = .error (.permissionError msg)

/-- The contribution of one namespace to the working set of a search:
its result list on success, nothing when the backend call raises. -/
def namespaceContribution (b : Backend) (query : String) (limit : Nat) (aid : String) :
    List RawResult :=
  match b.search query aid limit with
  | .ok results => results.results.getD []
  | .error _ => []

/-- The list a successful search hands back to the caller. -/
def searchResults (b : Backend) (request : SearchMemoryRequest)
    (owner_id requester_id : String) : List Memory :=
  match (search b request owner_id requester_id).1 with
  | .ok l => l
  | .error _ => []

/-- A backend whose every call succeeds with an empty response. -/
def nullBackend : Backend where
  add _ _ _ := .ok ⟨some []⟩
  search _ _ _ := .ok ⟨some []⟩
  update _ _ := .ok ()
  delete _ := .ok ()

/-- A backend whose every call raises. -/
def failBackend : Backend where
  add _ _ _ := .error (.exception "backend down")
  search _ _ _ := .error (.exception "backend down")
  update _ _ := .error (.exception "backend down")
  delete _ := .error (.exception "backend down")

/-- A backend whose add acknowledges with one materialized entry. -/
def richBackend : Backend where
  add _ _ _ := .ok ⟨some [⟨some "id1", some "remembered", none, some [("k", "v")]⟩]⟩
  search _ _ _ := .ok ⟨some []⟩
  update _ _ := .ok ()
  delete _ := .ok ()

/-- A backend whose search scores differ between the two namespaces of
agent bob. -/
def scoredBackend : Backend where
  add _ _ _ := .ok ⟨some []⟩
  search _ aid _ :=
    if aid = "bob-private" then
      .ok ⟨some [⟨some "1", some "alpha", some 9, none⟩, ⟨some "2", some "beta", some 10, none⟩]⟩
    else
      .ok ⟨some [⟨some "3", some "gamma", some 5, none⟩]⟩
  update _ _ := .ok ()
  delete _ := .ok ()

/-- A concrete owner-agent creation request. -/
def sampleCreateRequest : CreateMemoryRequest :=
  { agent_id := "bob", visibility := .Private, messages := [("user", "hello")], metadata := none }

/-- A concrete creation request naming an agent other than the owner. -/
def crossAgentRequest : CreateMemoryRequest :=
  { agent_id := "alice", visibility := .Public, messages := [("user", "hi")], metadata := none }

/-- A concrete search request with limit 2. -/
def sampleSearchRequest : SearchMemoryRequest :=
  { agent_id := "bob", query := "deploy", limit := 2 }

/-- Backend for the spec's Scenario C: namespace X holds scores 90 and
95, namespace Y holds score 99 (scores scaled by one hundred). -/
def scenarioCBackend : Backend where
  add _ _ _ := .ok ⟨some []⟩
  search _ aid _ :=
    if aid = "bob-private" then
      .ok ⟨some [⟨some "1", none, some 90, none⟩, ⟨some "2", none, some 95, none⟩]⟩
    else
      .ok ⟨some [⟨some "3", none, some 99, none⟩]⟩
  update _ _ := .ok ()
  delete _ := .ok ()

/-- Backend for the spec's Scenario D: namespace X raises, namespace Y
holds one scored result. -/
def scenarioDBackend : Backend where
  add _ _ _ := .ok ⟨some []⟩
  search _ aid _ :=
    if aid = "bob-private" then .error (.exception "namespace X down")
    else .ok ⟨some [⟨some "3", none, some 50, none⟩]⟩
  update _ _ := .ok ()
  delete _ := .ok ()

/-- Appending the same suffix to two strings is left-cancellative. -/
theorem append_same_suffix_cancel {a b : String} (s : String) (h : a ++ s = b ++ s) :
    a = b := by
  have h2 := congrArg String.data h
  rw [String.data_append, String.data_append] at h2
  exact String.ext (List.append_cancel_right h2)

/-- No private namespace string ever coincides with a public one; their
last characters differ. -/
theorem private_ns_ne_public_ns (a b : String) : a ++ "-private" ≠ b ++ "-public" := by
  intro h
  have h' := congrArg (fun s : String => s.data.getLast?) h
  simp [String.data_append, List.getLast?_append] at h'

/-- The visibility-tagged namespace builder agrees with the literal
namespace strings used inside the search-side scoper. -/
theorem build_private_eq (a : String) :
    build_agent_id_with_visibility a "private" = a ++ "-private" := by
  rw [build_agent_id_with_visibility, String.append_assoc]
  exact congrArg (a ++ ·) rfl

/-- Public-side counterpart of the namespace-builder agreement. -/
theorem build_public_eq (a : String) :
    build_agent_id_with_visibility a "public" = a ++ "-public" := by
  rw [build_agent_id_with_visibility, String.append_assoc]
  exact congrArg (a ++ ·) rfl

/-- C1: if the requester is the owner, read-namespace resolution returns
exactly the private then the public namespace of the named agent; for
any other requester it returns only the public namespace and never the
private one. -/
theorem read_namespaces_access_control (agent_id requester_id owner_id : String) :
    (requester_id = owner_id →
      get_search_agent_ids agent_id requester_id owner_id =
        [build_agent_id_with_visibility agent_id "private",
         build_agent_id_with_visibility agent_id "public"]) ∧
    (requester_id ≠ owner_id →
      get_search_agent_ids agent_id requester_id owner_id =
        [build_agent_id_with_visibility agent_id "public"] ∧
      build_agent_id_with_visibility agent_id "private" ∉
        get_search_agent_ids agent_id requester_id owner_id) := by
  constructor
  · intro h
    simp [get_search_agent_ids, h, build_private_eq, build_public_eq]
  · intro h
    refine ⟨by simp [get_search_agent_ids, h, build_public_eq], ?_⟩
    simp only [get_search_agent_ids, if_neg h, build_private_eq, List.mem_singleton]
    exact private_ns_ne_public_ns agent_id agent_id

/-- Witness for C1 at agent bob with requesters bob and alice. -/
theorem read_namespaces_access_control_witness :
    get_search_agent_ids "bob" "bob" "bob" =
      [build_agent_id_with_visibility "bob" "private",
       build_agent_id_with_visibility "bob" "public"] ∧
    (get_search_agent_ids "bob" "alice" "bob" =
        [build_agent_id_with_visibility "bob" "public"] ∧
      build_agent_id_with_visibility "bob" "private" ∉
        get_search_agent_ids "bob" "alice" "bob") :=
  ⟨(read_namespaces_access_control "bob" "bob" "bob").1 rfl,
   (read_namespaces_access_control "bob" "alice" "bob").2 (by decide)⟩

/-- C6: the write-namespace mapping is injective over (agent id,
visibility) pairs with visibility drawn from the enum; determinism and
freedom from side effects are inherent in its being a pure function of
exactly these two arguments. -/
theorem build_agent_id_with_visibility_injective (a1 a2 : String) (v1 v2 : Visibility)
    (h : build_agent_id_with_visibility a1 v1.value =
      build_agent_id_with_visibility a2 v2.value) :
    a1 = a2 ∧ v1 = v2 := by
  cases v1 <;> cases v2 <;>
    simp only [Visibility.value, build_private_eq, build_public_eq] at h
  · exact ⟨append_same_suffix_cancel _ h, rfl⟩
  · exact absurd h (private_ns_ne_public_ns a1 a2)
  · exact absurd h.symm (private_ns_ne_public_ns a2 a1)
  · exact ⟨append_same_suffix_cancel _ h, rfl⟩

/-- Witness for C6 at a concrete pair. -/
theorem build_agent_id_with_visibility_injective_witness :
    "bob" = "bob" ∧ Visibility.Private = Visibility.Private :=
  build_agent_id_with_visibility_injective "bob" "bob" .Private .Private rfl

/-- C2: called with a requester other than the owner, add and delete
fail with the guard's PermissionError and issue zero backend calls. -/
theorem add_delete_denied_no_backend_calls (b : Backend) (request : CreateMemoryRequest)
    (memory_id owner_id requester_id : String) (h : requester_id ≠ owner_id) :
    add b request owner_id requester_id =
      (.error (.permissionError "Only the owner can write to agent memory"), []) ∧
    delete b memory_id owner_id requester_id =
      (.error (.permissionError "Only the owner can delete agent memory"), []) := by
  constructor
  · simp [add, h]
  · simp [delete, h]

/-- Witness for C2: requester eve, owner bob. -/
theorem add_delete_denied_no_backend_calls_witness :
    add nullBackend sampleCreateRequest "bob" "eve" =
      (.error (.permissionError "Only the owner can write to agent memory"), []) ∧
    delete nullBackend "m1" "bob" "eve" =
      (.error (.permissionError "Only the owner can delete agent memory"), []) :=
  add_delete_denied_no_backend_calls nullBackend sampleCreateRequest "m1" "bob" "eve"
    (by decide)

/-- The working set built by the search loop is the concatenation of the
per-namespace contributions. -/
theorem searchLoop_results (b : Backend) (query : String) (limit : Nat)
    (aids : List String) (st : List RawResult × List BackendCall) :
    (aids.foldl (searchStep b query limit) st).1 =
      st.1 ++ (aids.map (namespaceContribution b query limit)).flatten := by
  induction aids generalizing st with
  | nil => simp
  | cons a rest ih =>
    rw [List.foldl_cons, ih]
    have hstep : (searchStep b query limit st a).1 =
        st.1 ++ namespaceContribution b query limit a := by
      unfold searchStep namespaceContribution
      cases b.search query a limit <;> simp
    rw [hstep]
    simp

/-- The search loop records exactly one traced backend call per
namespace, in order, whether or not the call raised. -/
theorem searchLoop_trace (b : Backend) (query : String) (limit : Nat)
    (aids : List String) (st : List RawResult × List BackendCall) :
    (aids.foldl (searchStep b query limit) st).2 =
      st.2 ++ aids.map (fun aid => BackendCall.searchCall query aid limit) := by
  induction aids generalizing st with
  | nil => simp
  | cons a rest ih =>
    rw [List.foldl_cons, ih]
    have hstep : (searchStep b query limit st a).2 =
        st.2 ++ [BackendCall.searchCall query a limit] := by
      unfold searchStep
      cases b.search query a limit <;> simp
    rw [hstep]
    simp

/-- Closed form of search: ok of the sorted, truncated, mapped merge of
the per-namespace contributions, with one traced call per namespace. -/
theorem search_eq (b : Backend) (request : SearchMemoryRequest)
    (owner_id requester_id : String) :
    search b request owner_id requester_id =
      (.ok (((sortByScoreDesc
            ((get_search_agent_ids request.agent_id requester_id owner_id).map
              (namespaceContribution b request.query request.limit)).flatten).take
          request.limit).map rawToMemory),
       (get_search_agent_ids request.agent_id requester_id owner_id).map
         (fun aid => BackendCall.searchCall request.query aid request.limit)) := by
  simp only [search]
  rw [searchLoop_results, searchLoop_trace]
  simp

/-- Closed form of the result list a search hands back. -/
theorem searchResults_eq (b : Backend) (request : SearchMemoryRequest)
    (owner_id requester_id : String) :
    searchResults b request owner_id requester_id =
      ((sortByScoreDesc
          ((get_search_agent_ids request.agent_id requester_id owner_id).map
            (namespaceContribution b request.query request.limit)).flatten).take
        request.limit).map rawToMemory := by
  unfold searchResults
  rw [search_eq]

/-- A search never returns more than the requested limit. -/
theorem searchResults_length_le (b : Backend) (request : SearchMemoryRequest)
    (owner_id requester_id : String) :
    (searchResults b request owner_id requester_id).length ≤ request.limit := by
  rw [searchResults_eq, List.length_map]
  exact List.length_take_le _ _

/-- A search result list is pairwise ordered by descending score, a
missing score counting as zero. -/
theorem searchResults_sorted (b : Backend) (request : SearchMemoryRequest)
    (owner_id requester_id : String) :
    List.Pairwise (fun m1 m2 : Memory => m2.score.getD 0 ≤ m1.score.getD 0)
      (searchResults b request owner_id requester_id) := by
  rw [searchResults_eq, List.pairwise_map]
  have hsorted := List.sorted_insertionSort scoreDescOrder
    (((get_search_agent_ids request.agent_id requester_id owner_id).map
        (namespaceContribution b request.query request.limit)).flatten)
  have htake := List.Pairwise.sublist
    (List.take_sublist request.limit _) hsorted
  unfold sortByScoreDesc
  exact htake.imp (fun hab => by
    simpa [scoreDescOrder, rawToMemory, scoreKey] using hab)

/-- A namespace whose backend call raises contributes no results. -/
theorem namespaceContribution_of_failure (b : Backend) (query : String) (limit : Nat)
    (aid : String) (h : (b.search query aid limit).isOk = false) :
    namespaceContribution b query limit aid = [] := by
  unfold namespaceContribution
  cases hx : b.search query aid limit with
  | ok r => rw [hx] at h; simp [Except.isOk, Except.toBool] at h
  | error e => rfl

/-- C3: a backend failure while searching one namespace is caught and
contributes zero results, never aborting the operation or escaping to
the caller; surviving namespaces are still merged and returned, and if
every visible namespace fails the outcome is ok with the empty list. -/
theorem search_tolerates_backend_failures (b : Backend) (request : SearchMemoryRequest)
    (owner_id requester_id : String) :
    (search b request owner_id requester_id).1 =
      .ok (((sortByScoreDesc
          ((get_search_agent_ids request.agent_id requester_id owner_id).map
            (namespaceContribution b request.query request.limit)).flatten).take
        request.limit).map rawToMemory) ∧
    (∀ aid, (b.search request.query aid request.limit).isOk = false →
      namespaceContribution b request.query request.limit aid = []) ∧
    ((∀ aid ∈ get_search_agent_ids request.agent_id requester_id owner_id,
        (b.search request.query aid request.limit).isOk = false) →
      (search b request owner_id requester_id).1 = .ok []) := by
  refine ⟨by rw [search_eq], fun aid h => namespaceContribution_of_failure b _ _ aid h, ?_⟩
  intro hall
  rw [search_eq]
  have hnil : ((get_search_agent_ids request.agent_id requester_id owner_id).map
      (namespaceContribution b request.query request.limit)).flatten = [] := by
    rw [List.flatten_eq_nil_iff]
    intro l hl
    rcases List.mem_map.mp hl with ⟨aid, hmem, rfl⟩
    exact namespaceContribution_of_failure b _ _ aid (hall aid hmem)
  rw [hnil]
  simp [sortByScoreDesc, List.insertionSort]

/-- Witness for C3: a backend that always raises yields ok with the
empty list. -/
theorem search_tolerates_backend_failures_witness :
    (search failBackend sampleSearchRequest "bob" "alice").1 = .ok [] :=
  (search_tolerates_backend_failures failBackend sampleSearchRequest "bob" "alice").2.2
    (by decide)

/-- C4: every returned search list is sorted by score descending, a
result lacking a score ordering as if its score were zero, and holds at
most limit entries. -/
theorem search_sorted_and_bounded (b : Backend) (request : SearchMemoryRequest)
    (owner_id requester_id : String) :
    List.Pairwise (fun m1 m2 : Memory => m2.score.getD 0 ≤ m1.score.getD 0)
      (searchResults b request owner_id requester_id) ∧
    (searchResults b request owner_id requester_id).length ≤ request.limit :=
  ⟨searchResults_sorted b request owner_id requester_id,
   searchResults_length_le b request owner_id requester_id⟩

/-- C5: every visible namespace is queried exactly once with the same
full request limit, and the limit bounds only the final merged list. -/
theorem search_full_limit_per_namespace (b : Backend) (request : SearchMemoryRequest)
    (owner_id requester_id : String) :
    (search b request owner_id requester_id).2 =
      (get_search_agent_ids request.agent_id requester_id owner_id).map
        (fun aid => BackendCall.searchCall request.query aid request.limit) ∧
    (searchResults b request owner_id requester_id).length ≤ request.limit :=
  ⟨by rw [search_eq], searchResults_length_le b request owner_id requester_id⟩

/-- An add is denied exactly when the requester is not the owner,
whatever the request carries and whatever the backend would answer. -/
theorem add_denied_iff (b : Backend) (request : CreateMemoryRequest)
    (owner_id requester_id : String) :
    isPermissionDenied (add b request owner_id requester_id).1 ↔
      requester_id ≠ owner_id := by
  unfold add
  by_cases h : requester_id = owner_id
  · simp only [h, ne_eq, not_true_eq_false, if_false, ite_false]
    cases hx : b.add request.messages
        (build_agent_id_with_visibility request.agent_id request.visibility.value)
        request.metadata <;>
      simp [isPermissionDenied, hx]
  · simp [h, isPermissionDenied]

/-- A delete is denied exactly when the requester is not the owner. -/
theorem delete_denied_iff (b : Backend) (memory_id owner_id requester_id : String) :
    isPermissionDenied (delete b memory_id owner_id requester_id).1 ↔
      requester_id ≠ owner_id := by
  unfold delete
  by_cases h : requester_id = owner_id
  · simp only [h, ne_eq, not_true_eq_false, if_false, ite_false]
    cases hx : b.delete memory_id <;> simp [isPermissionDenied, hx]
  · simp [h, isPermissionDenied]

/-- The namespace list an owner-requester is granted, for any agent. -/
theorem get_search_agent_ids_owner (agent_id requester_id owner_id : String)
    (h : requester_id = owner_id) :
    get_search_agent_ids agent_id requester_id owner_id =
      [agent_id ++ "-private", agent_id ++ "-public"] := by
  simp [get_search_agent_ids, h]

/-- An authorized add issues exactly one backend call, into the
namespace composed from the agent named by the request. -/
theorem add_allowed_trace (b : Backend) (request : CreateMemoryRequest)
    (owner_id requester_id : String) (h : requester_id = owner_id) :
    (add b request owner_id requester_id).2 =
      [BackendCall.addCall request.messages
        (build_agent_id_with_visibility request.agent_id request.visibility.value)
        request.metadata] := by
  unfold add
  simp only [h, ne_eq, not_true_eq_false, if_false, ite_false]
  cases hx : b.add request.messages
      (build_agent_id_with_visibility request.agent_id request.visibility.value)
      request.metadata <;>
    simp [hx]

/-- C7: the allow/deny outcome of add and delete depends only on the
requester and owner identities, never on the agent named by the
request; an owner-requester is granted the private namespace of, and
writes into the namespace of, whatever agent the request names, even
one differing from the owner id. -/
theorem authorization_independent_of_agent_id (b : Backend) (request : CreateMemoryRequest)
    (a2 memory_id1 memory_id2 owner_id requester_id : String) :
    (isPermissionDenied (add b request owner_id requester_id).1 ↔
      isPermissionDenied (add b { request with agent_id := a2 } owner_id requester_id).1) ∧
    (isPermissionDenied (delete b memory_id1 owner_id requester_id).1 ↔
      isPermissionDenied (delete b memory_id2 owner_id requester_id).1) ∧
    (requester_id = owner_id →
      get_search_agent_ids request.agent_id requester_id owner_id =
        [request.agent_id ++ "-private", request.agent_id ++ "-public"] ∧
      (add b request owner_id requester_id).2 =
        [BackendCall.addCall request.messages
          (build_agent_id_with_visibility request.agent_id request.visibility.value)
          request.metadata]) := by
  refine ⟨?_, ?_, fun h => ⟨get_search_agent_ids_owner _ _ _ h, add_allowed_trace b request _ _ h⟩⟩
  · exact (add_denied_iff b request owner_id requester_id).trans
      (add_denied_iff b { request with agent_id := a2 } owner_id requester_id).symm
  · exact (delete_denied_iff b memory_id1 owner_id requester_id).trans
      (delete_denied_iff b memory_id2 owner_id requester_id).symm

/-- Witness for C7: requester bob equals owner bob and gains the
private namespace of agent alice and a write into an alice namespace. -/
theorem authorization_independent_of_agent_id_witness :
    get_search_agent_ids "alice" "bob" "bob" = ["alice-private", "alice-public"] ∧
    (add nullBackend crossAgentRequest "bob" "bob").2 =
      [BackendCall.addCall [("user", "hi")]
        (build_agent_id_with_visibility "alice" "public") none] :=
  (authorization_independent_of_agent_id nullBackend crossAgentRequest
    "x" "m1" "m2" "bob" "bob").2.2 rfl

/-- C8: update forwards the memory id and replacement content to the
backend with no ownership check (the method receives no requester or
owner identity), and echoes a Memory carrying exactly the given id and
content, with score and metadata absent. -/
theorem update_forwards_and_echoes (b : Backend) (memory_id : String)
    (request : UpdateMemoryRequest) :
    (update b memory_id request).2 = [BackendCall.updateCall memory_id request.content] ∧
    (∀ m : Memory, (update b memory_id request).1 = .ok m →
      m = { id := memory_id, content := request.content, score := none, metadata := none }) := by
  unfold update
  cases hx : b.update memory_id request.content <;> simp

/-- Witness for C8 at a concrete id and content. -/
theorem update_forwards_and_echoes_witness :
    (update nullBackend "m7" ⟨"new text"⟩).2 = [BackendCall.updateCall "m7" "new text"] ∧
    ({ id := "m7", content := "new text", score := none, metadata := none } : Memory) =
      { id := "m7", content := "new text", score := none, metadata := none } :=
  ⟨(update_forwards_and_echoes nullBackend "m7" ⟨"new text"⟩).1,
   (update_forwards_and_echoes nullBackend "m7" ⟨"new text"⟩).2 _ rfl⟩

/-- C9: an authorized add maps the first backend result entry, if any,
into the returned Memory (id, content and metadata), and returns a
Memory with empty id and content rather than an error when the backend
acknowledges with no entries. -/
theorem add_maps_first_result (b : Backend) (request : CreateMemoryRequest)
    (owner_id requester_id : String) (resp : AddResponse)
    (hauth : requester_id = owner_id)
    (hb : b.add request.messages
        (build_agent_id_with_visibility request.agent_id request.visibility.value)
        request.metadata = .ok resp) :
    (∀ m rest, resp.results = some (m :: rest) →
      (add b request owner_id requester_id).1 =
        .ok { id := m.id.getD "", content := m.memory.getD "", score := none,
              metadata := m.metadata }) ∧
    ((resp.results = none ∨ resp.results = some []) →
      (add b request owner_id requester_id).1 =
        .ok { id := "", content := "", score := none, metadata := none }) := by
  unfold add
  simp only [hauth, ne_eq, not_true_eq_false, if_false, ite_false, hb]
  constructor
  · intro m rest hres
    rw [hres]
  · rintro (hres | hres) <;> rw [hres] <;> simp [emptyRaw]

/-- Witness for C9: one backend materializes an entry, another
acknowledges with an empty results list. -/
theorem add_maps_first_result_witness :
    (add richBackend sampleCreateRequest "bob" "bob").1 =
      .ok { id := "id1", content := "remembered", score := none,
            metadata := some [("k", "v")] } ∧
    (add nullBackend sampleCreateRequest "bob" "bob").1 =
      .ok { id := "", content := "", score := none, metadata := none } :=
  ⟨(add_maps_first_result richBackend sampleCreateRequest "bob" "bob"
      ⟨some [⟨some "id1", some "remembered", none, some [("k", "v")]⟩]⟩ rfl rfl).1 _ _ rfl,
   (add_maps_first_result nullBackend sampleCreateRequest "bob" "bob"
      ⟨some []⟩ rfl rfl).2 (Or.inr rfl)⟩

/-- C10: the provider factory constructs exactly one manager for each
known provider kind and fails with a ValueError naming the invalid
value for any other configured provider, constructing no manager. -/
theorem create_memory_manager_dispatch (cfg : FactoryConfig) :
    (cfg.memory_provider = MemoryProvider.GRAPHITI →
      create_memory_manager cfg = .ok .graphitiManager) ∧
    (cfg.memory_provider = MemoryProvider.MEM0 →
      create_memory_manager cfg = .ok .mem0Manager) ∧
    (cfg.memory_provider ≠ MemoryProvider.GRAPHITI →
      cfg.memory_provider ≠ MemoryProvider.MEM0 →
      create_memory_manager cfg =
        .error (.configurationError
          ("Unsupported memory provider: " ++ cfg.memory_provider))) := by
  refine ⟨fun h => ?_, fun h => ?_, fun h1 h2 => ?_⟩
  · simp [create_memory_manager, h]
  · simp [create_memory_manager, h, MemoryProvider.GRAPHITI, MemoryProvider.MEM0]
  · simp [create_memory_manager, h1, h2]

/-- Witness for C10 at the two known kinds and one unknown value. -/
theorem create_memory_manager_dispatch_witness :
    create_memory_manager ⟨"graphiti"⟩ = .ok .graphitiManager ∧
    create_memory_manager ⟨"mem0"⟩ = .ok .mem0Manager ∧
    create_memory_manager ⟨"postgres"⟩ =
      .error (.configurationError "Unsupported memory provider: postgres") :=
  ⟨(create_memory_manager_dispatch ⟨"graphiti"⟩).1 rfl,
   (create_memory_manager_dispatch ⟨"mem0"⟩).2.1 rfl,
   ((create_memory_manager_dispatch ⟨"postgres"⟩).2.2 (by decide) (by decide)).trans
     (by rfl)⟩

example :
    (searchResults scenarioCBackend ⟨"bob", "q", 2⟩ "bob" "bob").map Memory.id =
      ["3", "2"] := by
  decide

example :
    searchResults scenarioDBackend ⟨"bob", "q", 5⟩ "bob" "bob" =
      [{ id := "3", content := "", score := some 50, metadata := none }] := by
  decide

example :
    (searchResults scoredBackend sampleSearchRequest "bob" "bob").map Memory.id =
      ["2", "1"] := by
  decide

example :
    (searchResults scoredBackend sampleSearchRequest "bob" "alice").map Memory.id =
      ["3"] := by
  decide

end A4S
